import Mathlib

/-!
Verification of the token-minting script `src/help.py`.

The script is straight-line Python: it builds a claims mapping (`payload`)
from fixed identity constants and two successive `datetime.utcnow()` reads,
signs it with `jwt.encode`, and prints a report.

Modelling choices:
* A clock is a function `ℕ → ℕ` giving the successive `utcnow()` readings
  as microseconds since the Unix epoch (Python datetimes have microsecond
  resolution).  Reading 0 is the one on line 17 (used for the expiration
  time), reading 1 the one on line 18 (used for the issued-at time).
* `int(dt.timestamp())` on a non-negative time is truncating division of
  the microsecond count by 1000000, which is `Nat` division here.
* The PyJWT library is not part of this repository; following the spec it
  is an external collaborator `encode(claims, secret, algorithm)` that is
  assumed correct, failing exactly on an empty secret or an unsupported
  algorithm.  It is modelled from the spec as an idealized signed token.
-/

/-- Line 5: the embedded shared secret. -/
def secret_key : String := "your_super_secret_jwt_key_here_make_it_long_and_secure_2024"

/-- Line 6: the embedded signing algorithm identifier. -/
def algorithm : String := "HS256"

/-- Lines 9-14: the fixed admin identity fields. -/
structure UserData where
  user_id : String
  username : String
  email : String
  role : String
deriving Repr, DecidableEq

/-- Lines 9-14: the `user_data` dictionary. -/
def user_data : UserData :=
  { user_id := "admin"
    username := "admin@xeno.com"
    email := "admin@xeno.com"
    role := "admin" }

/-- Lines 20-27: the claims mapping.  `exp` and `iat` are integer seconds
since the epoch (Python `int`, non-negative here since the clock readings
are after the epoch). -/
structure Payload where
  sub : String
  email : String
  username : String
  role : String
  exp : ℕ
  iat : ℕ
deriving Repr, DecidableEq

/-- Line 17: `expiration_time = datetime.utcnow() + timedelta(days=365)`,
in microseconds since the epoch, from the first clock reading. -/
def expiration_time (clock : ℕ → ℕ) : ℕ :=
  clock 0 + 365 * 86400 * 1000000

/-- Line 18: `issued_at = datetime.utcnow()`, in microseconds since the
epoch, from the second clock reading. -/
def issued_at (clock : ℕ → ℕ) : ℕ :=
  clock 1

/-- Lines 20-27: the `payload` dictionary built by the script.
`int(expiration_time.timestamp())` and `int(issued_at.timestamp())`
truncate the microsecond counts to whole seconds. -/
def payload (clock : ℕ → ℕ) : Payload :=
  { sub := user_data.user_id
    email := user_data.email
    username := user_data.username
    role := user_data.role
    exp := expiration_time clock / 1000000
    iat := issued_at clock / 1000000 }

/-- Modelled from the spec: the single error kind of the signing
collaborator (spec section 7), raised on an empty secret or an algorithm
the signing primitive does not support. -/
inductive SigningFailure where
  | emptySecret : SigningFailure
  | unsupportedAlgorithm : String → SigningFailure
deriving Repr, DecidableEq

/-- Modelled from the spec: decoding failures of the signing collaborator;
a wrong secret is a signature mismatch. -/
inductive DecodeError where
  | signatureMismatch : DecodeError
  | invalidAlgorithm : DecodeError
deriving Repr, DecidableEq

/-- Modelled from the spec: the opaque signed token string produced by the
signing primitive (header + claims + signature); it determines, and is
determined by, the claims, the secret and the algorithm used. -/
structure Token where
  claims : Payload
  secret : String
  alg : String
deriving Repr, DecidableEq

/-- Modelled from the spec: the algorithms the signing primitive supports;
HS256 is the one the script uses. -/
def supportedAlgorithms : List String := ["HS256"]

namespace jwt

/-- Modelled from the spec: `encode(claims, secret, algorithm)` of the
signing collaborator (PyJWT, not part of this repository).  It fails
exactly when the secret is empty or the algorithm is unsupported, and
otherwise produces the signed token. -/
def encode (claims : Payload) (secret : String) (alg : String) :
    Except SigningFailure Token :=
  if secret = "" then .error .emptySecret
  else if alg ∈ supportedAlgorithms then .ok ⟨claims, secret, alg⟩
  else .error (.unsupportedAlgorithm alg)

/-- Modelled from the spec: decoding a signed token with a secret and an
algorithm.  The signature verifies only under the secret that signed the
token; a different secret is a signature mismatch. -/
def decode (t : Token) (secret : String) (alg : String) :
    Except DecodeError Payload :=
  if secret = t.secret then
    if alg = t.alg then .ok t.claims
    else .error .invalidAlgorithm
  else .error .signatureMismatch

end jwt

/-- Line 30: `token = jwt.encode(payload, secret_key, algorithm=algorithm)`,
with the secret and algorithm kept as parameters so the spec scenarios
that vary them can be stated (the script itself passes `secret_key` and
`algorithm`). -/
def token (secret alg : String) (clock : ℕ → ℕ) : Except SigningFailure Token :=
  jwt.encode (payload clock) secret alg

/-- Modelled from the spec: the serialized form of the opaque token string
(the exact compact encoding belongs to the collaborator and no property
constrains its text). -/
def Token.serialize (t : Token) : String :=
  t.claims.sub ++ "." ++ t.claims.email ++ "." ++ t.claims.username ++ "." ++
    t.claims.role ++ "." ++ toString t.claims.exp ++ "." ++ toString t.claims.iat ++
    "." ++ t.secret ++ "." ++ t.alg

/-- Lines 32-34, 48: `print("="*60)`. -/
def banner : String := String.mk (List.replicate 60 (Char.ofNat 61))

/-- Python `str(n).zfill`-style left zero padding used by the `datetime`
rendering. -/
def padZero (w : ℕ) (n : ℕ) : String :=
  String.mk (List.replicate (w - (toString n).length) (Char.ofNat 48)) ++ toString n

/-- Civil date (year, month, day) from a day count since 1970-01-01, for
non-negative day counts (the Gregorian conversion `datetime` performs). -/
def civilFromDays (z : ℕ) : ℕ × ℕ × ℕ :=
  let z := z + 719468
  let era := z / 146097
  let doe := z % 146097
  let yoe := (doe - doe / 1460 + doe / 36524 - doe / 146096) / 365
  let y := yoe + era * 400
  let doy := doe - (365 * yoe + yoe / 4 - yoe / 100)
  let mp := (5 * doy + 2) / 153
  let d := doy - (153 * mp + 2) / 5 + 1
  let m := if mp < 10 then mp + 3 else mp - 9
  (if m ≤ 2 then y + 1 else y, m, d)

/-- Python `str(datetime)` for a time given in microseconds since the
epoch: `YYYY-MM-DD HH:MM:SS`, with `.ffffff` appended when the microsecond
part is nonzero. -/
def strDatetime (usec : ℕ) : String :=
  let secs := usec / 1000000
  let micro := usec % 1000000
  let ymd := civilFromDays (secs / 86400)
  let sod := secs % 86400
  let base := padZero 4 ymd.1 ++ "-" ++ padZero 2 ymd.2.1 ++ "-" ++ padZero 2 ymd.2.2
    ++ " " ++ padZero 2 (sod / 3600) ++ ":" ++ padZero 2 (sod % 3600 / 60)
    ++ ":" ++ padZero 2 (sod % 60)
  if micro = 0 then base else base ++ "." ++ padZero 6 micro

/-- Lines 32-48: the report printed to standard output once signing has
succeeded, one list element per `print` call. -/
def report (t : Token) (expiration_t issued_t : ℕ) : List String :=
  [ banner
  , "🔐 FRESH JWT TOKEN GENERATED"
  , banner
  , "Token: " ++ t.serialize
  , ""
  , "📅 Token Details:"
  , "• Issued At: " ++ strDatetime issued_t
  , "• Expires At: " ++ strDatetime expiration_t
  , "• Valid For: 365 days"
  , "• User: " ++ user_data.email
  , "• Role: " ++ user_data.role
  , ""
  , "🚨 IMPORTANT:"
  , "1. Use this as your ADMIN_JWT_TOKEN in Railway environment variables"
  , "2. Make sure JWT_SECRET matches the secret_key used here"
  , "3. Remove the old expired ADMIN_JWT_TOKEN from Railway"
  , banner ]

/-- The observable outcome of one run: process exit code, the lines
written to standard output, and the diagnostic of an uncaught
`SigningFailure` (written to standard error) if one occurred. -/
structure RunResult where
  exitCode : ℕ
  output : List String
  diagnostic : Option SigningFailure
deriving Repr, DecidableEq

/-- The whole script: build the payload (lines 17-27), sign it (line 30),
then print the report (lines 32-48).  An uncaught failure from the signing
step aborts the process with a nonzero exit code before anything is
printed.  The secret and algorithm are parameters so the spec scenarios
that vary them can be stated; the script passes `secret_key` and
`algorithm`. -/
def run (secret alg : String) (clock : ℕ → ℕ) : RunResult :=
  match jwt.encode (payload clock) secret alg with
  | .error e => { exitCode := 1, output := [], diagnostic := some e }
  | .ok t =>
      { exitCode := 0
        output := report t (expiration_time clock) (issued_at clock)
        diagnostic := none }

/-- The run the script actually performs, with its embedded constants. -/
def runMain (clock : ℕ → ℕ) : RunResult :=
  run secret_key algorithm clock

/-- C1, as stated, is false on the code: the script reads the clock twice
(line 17 for the expiration, line 18 for the issued-at time), so when the
second reading falls in the next whole second — here the reads are 0 s and
1 s — the difference of the stored timestamps is 31535999, not
365 * 86400 = 31536000 seconds. -/
theorem C1_counterexample :
    ¬ (((payload fun i => i * 1000000).exp : ℤ) -
        ((payload fun i => i * 1000000).iat : ℤ) = 365 * 86400) := by
  decide

/-- C1 (amended): in every run where the two clock readings truncate to
the same whole second — in particular whenever the clock does not advance
between the two adjacent reads — the expiration timestamp minus the
issued-at timestamp equals exactly 365 * 86400 seconds. -/
theorem C1_theorem (clock : ℕ → ℕ)
    (h : clock 0 / 1000000 = clock 1 / 1000000) :
    ((payload clock).exp : ℤ) - ((payload clock).iat : ℤ) = 365 * 86400 := by
  show (((clock 0 + 365 * 86400 * 1000000) / 1000000 : ℕ) : ℤ) -
      ((clock 1 / 1000000 : ℕ) : ℤ) = 365 * 86400
  rw [Nat.add_mul_div_right _ _ (by norm_num : (0:ℕ) < 1000000), h]
  push_cast
  ring

/-- Witness for C1: at a clock frozen at 2024-01-01T00:00:00Z both reads
agree, and the stored window is exactly 365 * 86400 seconds. -/
theorem C1_theorem_witness :
    (fun _ : ℕ => 1704067200000000) 0 / 1000000 =
      (fun _ : ℕ => 1704067200000000) 1 / 1000000 ∧
    ((payload fun _ => 1704067200000000).exp : ℤ) -
      ((payload fun _ => 1704067200000000).iat : ℤ) = 365 * 86400 :=
  ⟨rfl, C1_theorem (fun _ => 1704067200000000) rfl⟩

/-- C2: with the clock fixed at an integer second T, the issued-at claim
equals T and the expiration claim equals T + 365 * 86400; the claim
timestamps are a function of the clock alone. -/
theorem C2_theorem (clock : ℕ → ℕ) (T : ℕ)
    (h : ∀ i, clock i = T * 1000000) :
    (payload clock).iat = T ∧ (payload clock).exp = T + 365 * 86400 := by
  simp only [payload, issued_at, expiration_time, h]
  omega

/-- Witness for C2 at T = 1704067200 (2024-01-01T00:00:00Z). -/
theorem C2_theorem_witness :
    (∀ i : ℕ, (fun _ : ℕ => 1704067200000000) i = 1704067200 * 1000000) ∧
    ((payload fun _ : ℕ => 1704067200000000).iat = 1704067200 ∧
      (payload fun _ : ℕ => 1704067200000000).exp = 1704067200 + 365 * 86400) :=
  ⟨fun _ => rfl, C2_theorem (fun _ => 1704067200000000) 1704067200 fun _ => rfl⟩

/-- C3: with the clock fixed at 2024-01-01T00:00:00Z (epoch second
1704067200), secret s3cr3t and algorithm HS256, the produced token decodes
to exactly the claims mapping with sub, email, username, role fixed,
iat = 1704067200 and exp = 1735603200. -/
theorem C3_theorem :
    ∃ t : Token,
      token "s3cr3t" "HS256" (fun _ => 1704067200000000) = .ok t ∧
      jwt.decode t "s3cr3t" "HS256" = .ok
        { sub := "admin", email := "admin@xeno.com", username := "admin@xeno.com",
          role := "admin", exp := 1735603200, iat := 1704067200 } :=
  ⟨{ claims := { sub := "admin", email := "admin@xeno.com",
                 username := "admin@xeno.com", role := "admin",
                 exp := 1735603200, iat := 1704067200 },
     secret := "s3cr3t", alg := "HS256" }, rfl, rfl⟩

/-- C4: for every run the claims mapping has exactly the fixed identity
fields sub = admin, email = username = admin@xeno.com, role = admin,
together with the issued-at and expiration timestamps derived from the
clock — nothing else. -/
theorem C4_theorem (clock : ℕ → ℕ) :
    payload clock =
      { sub := "admin", email := "admin@xeno.com", username := "admin@xeno.com",
        role := "admin",
        exp := (clock 0 + 365 * 86400 * 1000000) / 1000000,
        iat := clock 1 / 1000000 } :=
  rfl

/-- C5: decoding with the same secret and algorithm inverts encoding —
whenever encode succeeds, decode of the produced token returns exactly the
claims that were encoded. -/
theorem C5_theorem (p : Payload) (secret alg : String) (t : Token)
    (h : jwt.encode p secret alg = .ok t) :
    jwt.decode t secret alg = .ok p := by
  unfold jwt.encode at h
  split at h
  · exact absurd h (by simp)
  · split at h
    · cases h
      simp [jwt.decode]
    · exact absurd h (by simp)

/-- Witness for C5: a concrete round trip through encode and decode. -/
theorem C5_theorem_witness :
    jwt.encode (payload fun _ => 0) "s3cr3t" "HS256" =
      .ok ⟨payload fun _ => 0, "s3cr3t", "HS256"⟩ ∧
    jwt.decode ⟨payload fun _ => 0, "s3cr3t", "HS256"⟩ "s3cr3t" "HS256" =
      .ok (payload fun _ => 0) :=
  ⟨rfl, C5_theorem (payload fun _ => 0) "s3cr3t" "HS256" _ rfl⟩

/-- C6: if the signing step fails, the run exits nonzero with a
diagnostic and prints none of the report: the standard output is empty. -/
theorem C6_theorem (secret alg : String) (clock : ℕ → ℕ) (e : SigningFailure)
    (h : token secret alg clock = .error e) :
    (run secret alg clock).exitCode ≠ 0 ∧
    (run secret alg clock).output = [] ∧
    (run secret alg clock).diagnostic = some e := by
  unfold token at h
  unfold run
  rw [h]
  exact ⟨Nat.one_ne_zero, rfl, rfl⟩

/-- Witness for C6: the empty secret makes signing fail and the run emits
nothing. -/
theorem C6_theorem_witness :
    token "" "HS256" (fun _ => 0) = .error .emptySecret ∧
    ((run "" "HS256" fun _ => 0).exitCode ≠ 0 ∧
      (run "" "HS256" fun _ => 0).output = [] ∧
      (run "" "HS256" fun _ => 0).diagnostic = some .emptySecret) :=
  ⟨rfl, C6_theorem "" "HS256" (fun _ => 0) .emptySecret rfl⟩

/-- C7: on a successful run the standard output is exactly, in order: a
banner of 60 equals signs, the title line, a second banner, the token
line, a blank line, the Token Details section with the issued-at,
expiration, validity-in-days, user email and role bullets, a blank line,
the IMPORTANT section with three numbered reminder lines, and a closing
banner. -/
theorem C7_theorem (secret alg : String) (clock : ℕ → ℕ) (t : Token)
    (h : token secret alg clock = .ok t) :
    (run secret alg clock).output =
      [ banner
      , "🔐 FRESH JWT TOKEN GENERATED"
      , banner
      , "Token: " ++ t.serialize
      , ""
      , "📅 Token Details:"
      , "• Issued At: " ++ strDatetime (issued_at clock)
      , "• Expires At: " ++ strDatetime (expiration_time clock)
      , "• Valid For: 365 days"
      , "• User: admin@xeno.com"
      , "• Role: admin"
      , ""
      , "🚨 IMPORTANT:"
      , "1. Use this as your ADMIN_JWT_TOKEN in Railway environment variables"
      , "2. Make sure JWT_SECRET matches the secret_key used here"
      , "3. Remove the old expired ADMIN_JWT_TOKEN from Railway"
      , banner ] ∧
    banner.length = 60 ∧ banner.data = List.replicate 60 (Char.ofNat 61) := by
  refine ⟨?_, by decide, rfl⟩
  unfold token at h
  unfold run
  rw [h]
  rfl

/-- Witness for C7: the shipped configuration with the clock at the epoch
succeeds and prints exactly the report. -/
theorem C7_theorem_witness :
    token secret_key algorithm (fun _ => 0) =
      .ok ⟨payload fun _ => 0, secret_key, algorithm⟩ ∧
    ((run secret_key algorithm fun _ => 0).output =
      [ banner
      , "🔐 FRESH JWT TOKEN GENERATED"
      , banner
      , "Token: " ++ Token.serialize ⟨payload fun _ => 0, secret_key, algorithm⟩
      , ""
      , "📅 Token Details:"
      , "• Issued At: " ++ strDatetime (issued_at fun _ => 0)
      , "• Expires At: " ++ strDatetime (expiration_time fun _ => 0)
      , "• Valid For: 365 days"
      , "• User: admin@xeno.com"
      , "• Role: admin"
      , ""
      , "🚨 IMPORTANT:"
      , "1. Use this as your ADMIN_JWT_TOKEN in Railway environment variables"
      , "2. Make sure JWT_SECRET matches the secret_key used here"
      , "3. Remove the old expired ADMIN_JWT_TOKEN from Railway"
      , banner ] ∧
    banner.length = 60 ∧ banner.data = List.replicate 60 (Char.ofNat 61)) :=
  ⟨rfl,
   C7_theorem secret_key algorithm (fun _ => 0)
     ⟨payload fun _ => 0, secret_key, algorithm⟩ rfl⟩

/-- C8: with the empty string as shared secret the signing step fails
with SigningFailure, the run exits nonzero and no success report is
printed, whatever the algorithm and the clock. -/
theorem C8_theorem (alg : String) (clock : ℕ → ℕ) :
    token "" alg clock = .error .emptySecret ∧
    (run "" alg clock).exitCode ≠ 0 ∧
    (run "" alg clock).output = [] ∧
    (run "" alg clock).diagnostic = some .emptySecret :=
  ⟨rfl, Nat.one_ne_zero, rfl, rfl⟩

/-- C9: a token signed with one secret never decodes under a different
secret — decoding reports a signature mismatch. -/
theorem C9_theorem (p : Payload) (secret alg s2 : String) (t : Token)
    (henc : jwt.encode p secret alg = .ok t) (hne : s2 ≠ secret) :
    jwt.decode t s2 alg = .error .signatureMismatch := by
  unfold jwt.encode at henc
  split at henc
  · exact absurd henc (by simp)
  · split at henc
    · cases henc
      simp [jwt.decode, hne]
    · exact absurd henc (by simp)

/-- Witness for C9: a token signed with s3cr3t rejects the secret x. -/
theorem C9_theorem_witness :
    jwt.encode (payload fun _ => 0) "s3cr3t" "HS256" =
      .ok ⟨payload fun _ => 0, "s3cr3t", "HS256"⟩ ∧
    ("x" : String) ≠ "s3cr3t" ∧
    jwt.decode ⟨payload fun _ => 0, "s3cr3t", "HS256"⟩ "x" "HS256" =
      .error .signatureMismatch :=
  ⟨rfl, by decide,
   C9_theorem (payload fun _ => 0) "s3cr3t" "HS256" "x" _ rfl (by decide)⟩

/-- C10: under the embedded constants — a non-empty secret and the
supported algorithm HS256 — signing always succeeds, so every invocation
exits with code 0 and prints the complete report; the failure branch is
unreachable in the shipped configuration. -/
theorem C10_theorem (clock : ℕ → ℕ) :
    token secret_key algorithm clock =
      .ok ⟨payload clock, secret_key, algorithm⟩ ∧
    runMain clock =
      { exitCode := 0
        output := report ⟨payload clock, secret_key, algorithm⟩
          (expiration_time clock) (issued_at clock)
        diagnostic := none } :=
  ⟨rfl, rfl⟩
